import Mathlib

/-
Verification development for the conduit polysynth voice engine
(src/polysynth/voice.cpp and the voice-facing parts of polysynth.h).
Floating-point scalars are embedded as rationals where only field
arithmetic is involved, and as reals where transcendental functions
(pow, tan, cos, sin, sqrt) appear. Machine maps (std::unordered_map)
are embedded as functions into Option.
-/

namespace ConduitPolysynth

/-- Parameter id pmSawActive from the paramIds enum in polysynth.h. -/
def pmSawActive : ℕ := 1100

/-- Parameter id pmSawUnisonCount. -/
def pmSawUnisonCount : ℕ := 1101

/-- Parameter id pmSawUnisonSpread. -/
def pmSawUnisonSpread : ℕ := 1102

/-- Parameter id pmSawCoarse. -/
def pmSawCoarse : ℕ := 1103

/-- Parameter id pmSawFine. -/
def pmSawFine : ℕ := 1104

/-- Parameter id pmSawLevel. -/
def pmSawLevel : ℕ := 1105

/-- Parameter id pmPWActive. -/
def pmPWActive : ℕ := 1200

/-- Parameter id pmPWWidth. -/
def pmPWWidth : ℕ := 1201

/-- Parameter id pmPWFrequencyDiv. -/
def pmPWFrequencyDiv : ℕ := 1202

/-- Parameter id pmPWCoarse. -/
def pmPWCoarse : ℕ := 1203

/-- Parameter id pmPWFine. -/
def pmPWFine : ℕ := 1204

/-- Parameter id pmPWLevel. -/
def pmPWLevel : ℕ := 1205

/-- Parameter id pmSinActive. -/
def pmSinActive : ℕ := 1300

/-- Parameter id pmSinFrequencyDiv. -/
def pmSinFrequencyDiv : ℕ := 1301

/-- Parameter id pmSinCoarse. -/
def pmSinCoarse : ℕ := 1302

/-- Parameter id pmSinLevel. -/
def pmSinLevel : ℕ := 1303

/-- Parameter id pmNoiseActive. -/
def pmNoiseActive : ℕ := 1400

/-- Parameter id pmNoiseColor. -/
def pmNoiseColor : ℕ := 1401

/-- Parameter id pmNoiseLevel. -/
def pmNoiseLevel : ℕ := 1402

/-- Parameter id pmLPFActive. -/
def pmLPFActive : ℕ := 2000

/-- Parameter id pmLPFCutoff. -/
def pmLPFCutoff : ℕ := 2001

/-- Parameter id pmLPFResonance. -/
def pmLPFResonance : ℕ := 2002

/-- Parameter id pmLPFFilterMode. -/
def pmLPFFilterMode : ℕ := 2003

/-- Parameter id pmLPFKeytrack. -/
def pmLPFKeytrack : ℕ := 2004

/-- Parameter id pmSVFActive. -/
def pmSVFActive : ℕ := 2100

/-- Parameter id pmSVFCutoff. -/
def pmSVFCutoff : ℕ := 2101

/-- Parameter id pmSVFResonance. -/
def pmSVFResonance : ℕ := 2102

/-- Parameter id pmSVFFilterMode. -/
def pmSVFFilterMode : ℕ := 2103

/-- Parameter id pmSVFKeytrack. -/
def pmSVFKeytrack : ℕ := 2104

/-- Parameter id pmWSActive. -/
def pmWSActive : ℕ := 2200

/-- Parameter id pmWSDrive. -/
def pmWSDrive : ℕ := 2201

/-- Parameter id pmWSBias. -/
def pmWSBias : ℕ := 2202

/-- Parameter id pmWSMode. -/
def pmWSMode : ℕ := 2203

/-- Parameter id pmEnvA (amplitude envelope attack; filter envelope ids add offPmFeg = 10). -/
def pmEnvA : ℕ := 8000

/-- Parameter id pmEnvD. -/
def pmEnvD : ℕ := 8001

/-- Parameter id pmEnvS. -/
def pmEnvS : ℕ := 8002

/-- Parameter id pmEnvR. -/
def pmEnvR : ℕ := 8003

/-- Offset offPmFeg added to the four envelope ids for the filter envelope. -/
def offPmFeg : ℕ := 10

/-- Parameter id pmFegToLPFCutoff. -/
def pmFegToLPFCutoff : ℕ := 8040

/-- Parameter id pmFegToSVFCutoff. -/
def pmFegToSVFCutoff : ℕ := 8041

/-- Parameter id pmAegPreFilterGain. -/
def pmAegPreFilterGain : ℕ := 8051

/-- The six modes of PolysynthVoice::StereoSimperSVF, in the declaration order used
by the switch in PolysynthVoice::start (LP, HP, BP, NOTCH, PEAK, ALL). -/
inductive SVFMode where
  | LP
  | HP
  | BP
  | NOTCH
  | PEAK
  | ALL
deriving DecidableEq

/-- Waveshaper types of the sst waveshaper library that voice.cpp selects among.
The constructor wst_none stands for the identity (passthrough) type of the library,
which the spec names as the fallback; voice.cpp never selects it. -/
inductive WST where
  | wst_none
  | wst_soft
  | wst_ojd
  | wst_digital
  | wst_fwrectify
  | wst_westfold
  | wst_fuzz
deriving DecidableEq

/-- Quad filter unit selections (type plus subtype) that the LPF switch in
PolysynthVoice::start can assign, one constructor per case of the switch. -/
inductive QFSel where
  | obxd_4pole_24dB
  | vintageladder_0
  | k35_lp_medium
  | diode_24dB
  | cutoffwarp_lp_ojd3
  | resonancewarp_lp_tanh4
deriving DecidableEq

/-- State of one PolysynthVoice, restricted to the fields the verified claims
touch. Parameter bases and the two modulation maps stand for the ModulatedValue
bindings made in attachTo; maps are functions into Option, mirroring
std::unordered_map. -/
structure VoiceState where
  portid : ℤ
  channel : ℤ
  key : ℤ
  note_id : ℤ
  mtsHasMaster : Bool
  mtsFreq : ℤ → ℤ → ℚ
  tblFreq : Fin 128 → ℚ
  bases : ℕ → ℚ
  internalMods : ℕ → Option ℚ
  externalMods : ℕ → Option ℚ
  pitchNoteExpressionValue : ℚ
  pitchBendWheel : ℚ
  mpePitchBend : ℚ
  sawActive : Bool
  pulseActive : Bool
  sinActive : Bool
  noiseActive : Bool
  svfActive : Bool
  lpfActive : Bool
  gated : Bool
  active : Bool
  sawUnison : ℕ
  sawUniVoiceDetune : ℕ → ℚ
  svfFilterOp : Option SVFMode
  wsPtr : Option WST
  qfSel : QFSel
  qfPtr : Option QFSel
  samplerate : ℚ
  srInv : ℚ

/-- Modelled from the spec: ModulatedValue.value() of voice.h, which is not under
src; the spec states the effective value is base + internalMod + externalMod,
with the two mod pointers bound to the map entries of the given parameter id. -/
def mvValue (s : VoiceState) (p : ℕ) : ℚ :=
  s.bases p + (s.internalMods p).getD 0 + (s.externalMods p).getD 0

/-- The index std::clamp(key, 0, 127) used for the equal-tempered fallback table
in PolysynthVoice::recalcPitch; the Fin codomain makes the in-bounds access
manifest. -/
def clamp128 (k : ℤ) : Fin 128 :=
  ⟨(min (max k 0) 127).toNat, by omega⟩

/-- Base frequency choice of PolysynthVoice::recalcPitch: the MTS client when it
has a master, else baseFrequencyByMidiKey at the clamped key. -/
def baseFreqOf (s : VoiceState) : ℚ :=
  if s.mtsHasMaster then s.mtsFreq s.key s.channel
  else s.tblFreq (clamp128 s.key)

/-- Semitone-over-twelve exponent passed to twoToThe for saw unison voice i in
PolysynthVoice::recalcPitch. -/
def sawExpOf (s : VoiceState) (i : ℕ) : ℚ :=
  ((mvValue s pmSawUnisonSpread * s.sawUniVoiceDetune i + mvValue s pmSawFine) / 100 +
      mvValue s pmSawCoarse + s.pitchNoteExpressionValue + s.pitchBendWheel) / 12

/-- Modelled from the spec: synth.twoToXTable.twoToThe, the two-to-the-x table of
the shared base class, which is not under src; the spec states the pitch law as
baseFrequency times 2 to this exponent. -/
noncomputable def twoTo (q : ℚ) : ℝ :=
  (2 : ℝ) ^ (q : ℝ)

/-- Frequency that recalcPitch programs into saw unison oscillator i. -/
noncomputable def sawFreq (s : VoiceState) (i : ℕ) : ℝ :=
  ((baseFreqOf s : ℚ) : ℝ) * twoTo (sawExpOf s i)

/-- Truncation toward zero, matching a static_cast from float to int. -/
def ratTruncInt (q : ℚ) : ℤ :=
  if q < 0 then -(Int.floor (-q)) else Int.floor q

/-- Rounding half away from zero, matching std::round. -/
def rndHalfAway (q : ℚ) : ℤ :=
  if q < 0 then -(Int.floor (-q + 1/2)) else Int.floor (q + 1/2)

/-- The octave index std::clamp(round(octaveParam) + 3, 0, 6) of recalcPitch. -/
def octIdx (q : ℚ) : Fin 7 :=
  ⟨(min (max (rndHalfAway q + 3) 0) 6).toNat, by omega⟩

/-- The static table mul of recalcPitch: octave multipliers eighth through eight. -/
def mulTable : Fin 7 → ℚ :=
  ![1/8, 1/4, 1/2, 1, 2, 4, 8]

/-- Pulse oscillator data set by recalcPitch when pulseActive: the octave
multiplier, the semitone-over-twelve exponent, and the pulse width. -/
def pulsePart (s : VoiceState) : Option (ℚ × ℚ × ℚ) :=
  if s.pulseActive then
    some (mulTable (octIdx (mvValue s pmPWFrequencyDiv)),
      (mvValue s pmPWCoarse + mvValue s pmPWFine * (1/100) +
          s.pitchNoteExpressionValue + s.pitchBendWheel) / 12,
      mvValue s pmPWWidth)
  else none

/-- Sine oscillator data set by recalcPitch when sinActive: the octave
multiplier, the semitone-over-twelve exponent, and the srInv factor of the rate. -/
def sinePart (s : VoiceState) : Option (ℚ × ℚ × ℚ) :=
  if s.sinActive then
    some (mulTable (octIdx (mvValue s pmSinFrequencyDiv)),
      (mvValue s pmSinCoarse + s.pitchNoteExpressionValue + s.pitchBendWheel) / 12,
      s.srInv)
  else none

/-- Everything PolysynthVoice::recalcPitch writes to the oscillators, as data:
the base frequency, the per-unison-voice saw exponents, and the pulse and sine
tuples. The realized frequencies are the base frequency times twoTo of the
exponents. -/
def recalcPitch (s : VoiceState) : ℚ × List ℚ × Option (ℚ × ℚ × ℚ) × Option (ℚ × ℚ × ℚ) :=
  (baseFreqOf s,
    (if s.sawActive then (List.range s.sawUnison).map (sawExpOf s) else []),
    pulsePart s,
    sinePart s)

/-- ConduitPolysynth::setVoiceMIDIMPEChannelPitchBend from polysynth.h: stores
the centered fraction of the 14-bit bend into mpePitchBend, then calls
recalcPitch on the voice. -/
def setVoiceMIDIMPEChannelPitchBend (pb14 : ℤ) (s : VoiceState) : VoiceState :=
  { s with mpePitchBend := ((pb14 : ℚ) - 8192) / 8192 }

/-- ConduitPolysynth::setVoiceMIDIPitchBend from polysynth.h: stores the centered
fraction of the 14-bit bend times the hardcoded depth two into pitchBendWheel. -/
def setVoiceMIDIPitchBend (pb14 : ℤ) (s : VoiceState) : VoiceState :=
  { s with pitchBendWheel := ((pb14 : ℚ) - 8192) / 8192 * 2 }

/-- PolysynthVoice::applyExternalMod: writes the external modulation slot of the
given parameter when the map holds that parameter, else does nothing. -/
def applyExternalMod (s : VoiceState) (param : ℕ) (value : ℚ) : VoiceState :=
  if (s.externalMods param).isSome then
    { s with externalMods := fun q => if q = param then some value else s.externalMods q }
  else s

/-- The internal-modulation writes at the top of PolysynthVoice::processBlock:
after the two envelopes run, the SVF cutoff internal mod is set from the filter
envelope output, the FEG-to-SVF depth and the SVF keytrack, and the LPF cutoff
internal mod likewise; the envelope block outputs are taken as arguments since
the envelope generator lives in the sst library. -/
def processBlockMods (s : VoiceState) (aegOut fegOut : ℚ) : VoiceState :=
  { s with internalMods := fun p =>
      if p = pmSVFCutoff then
        some (fegOut * mvValue s pmFegToSVFCutoff +
          mvValue s pmSVFKeytrack * ((s.key : ℚ) - 69))
      else if p = pmLPFCutoff then
        some (fegOut * mvValue s pmFegToLPFCutoff +
          mvValue s pmLPFKeytrack * ((s.key : ℚ) - 69))
      else s.internalMods p }

/-- The cutoff and resonance values PolysynthVoice::recalcFilter reads and hands
to StereoSimperSVF::setCoeff. -/
def recalcFilterArgs (s : VoiceState) : ℚ × ℚ :=
  (mvValue s pmSVFCutoff, mvValue s pmSVFResonance)

/-- The SVF setCoeff arguments as computed inside processBlock: the internal-mod
writes happen first, then recalcFilter reads the modulated values. -/
def processBlockFilterArgs (s : VoiceState) (aegOut fegOut : ℚ) : ℚ × ℚ :=
  recalcFilterArgs (processBlockMods s aegOut fegOut)

/-- The waveshaper type chosen by the switch in PolysynthVoice::start: the local
is initialized to wst_ojd and the switch overwrites it for each recognized
enumerator of Waveshapers, so every unrecognized value keeps wst_ojd. The
enumerator codes come from voice.h, which declares Soft, OJD, Digital,
FullWaveRect, WestcoastFold, Fuzz; they are embedded as zero through five in
declaration order. -/
def wsTypeFor (code : ℤ) : WST :=
  if code = 0 then WST.wst_soft
  else if code = 1 then WST.wst_ojd
  else if code = 2 then WST.wst_digital
  else if code = 3 then WST.wst_fwrectify
  else if code = 4 then WST.wst_westfold
  else if code = 5 then WST.wst_fuzz
  else WST.wst_ojd

/-- The svfFilterOp assignment of PolysynthVoice::start: a switch with one case
per StereoSimperSVF mode and no default, so an unrecognized mode value leaves
the previously stored operator in place. Mode codes are embedded as zero through
five in the switch order LP, HP, BP, NOTCH, PEAK, ALL. -/
def svfOpSelect (prev : Option SVFMode) (code : ℤ) : Option SVFMode :=
  if code = 0 then some SVFMode.LP
  else if code = 1 then some SVFMode.HP
  else if code = 2 then some SVFMode.BP
  else if code = 3 then some SVFMode.NOTCH
  else if code = 4 then some SVFMode.PEAK
  else if code = 5 then some SVFMode.ALL
  else prev

/-- The qfType and qfSubType assignment of the LPF switch in
PolysynthVoice::start: one case per recognized LPFTypes enumerator and no
default, so an unrecognized value leaves the previous selection in place.
Codes are embedded as zero through five in declaration order OBXD, Vintage,
K35, Diode, CutWarp, ResWarp. -/
def qfSelFor (prev : QFSel) (code : ℤ) : QFSel :=
  if code = 0 then QFSel.obxd_4pole_24dB
  else if code = 1 then QFSel.vintageladder_0
  else if code = 2 then QFSel.k35_lp_medium
  else if code = 3 then QFSel.diode_24dB
  else if code = 4 then QFSel.cutoffwarp_lp_ojd3
  else if code = 5 then QFSel.resonancewarp_lp_tanh4
  else prev

/-- PolysynthVoice::start as a transform of the tracked state: snapshots the
note address and the per-note-constant parameters from the synth parameter
bank, resolves the three dispatch switches, marks the voice gated and active,
and writes the unison detune table (index zero pinned to zero when the count is
one, else the two-times-i-over-count-minus-one-minus-one formula for the
indices below the count). -/
def start (porti channeli keyi noteidi : ℤ) (synthParam : ℕ → ℚ) (s : VoiceState) :
    VoiceState :=
  let sawUnisonN : ℕ := (ratTruncInt (synthParam pmSawUnisonCount)).toNat
  { s with
    portid := porti
    channel := channeli
    key := keyi
    note_id := noteidi
    sawUnison := sawUnisonN
    sawActive := decide (synthParam pmSawActive ≠ 0)
    pulseActive := decide (synthParam pmPWActive ≠ 0)
    sinActive := decide (synthParam pmSinActive ≠ 0)
    noiseActive := decide (synthParam pmNoiseActive ≠ 0)
    svfFilterOp := svfOpSelect s.svfFilterOp (ratTruncInt (synthParam pmSVFFilterMode))
    svfActive := decide (synthParam pmSVFActive ≠ 0)
    gated := true
    active := true
    srInv := 1 / s.samplerate
    sawUniVoiceDetune := fun i =>
      if sawUnisonN = 1 then (if i = 0 then 0 else s.sawUniVoiceDetune i)
      else if i < sawUnisonN then 2 * ((i : ℚ) / ((sawUnisonN : ℚ) - 1)) - 1
      else s.sawUniVoiceDetune i
    wsPtr :=
      if synthParam pmWSActive ≠ 0 then
        some (wsTypeFor (ratTruncInt (synthParam pmWSMode)))
      else none
    lpfActive := decide (synthParam pmLPFActive ≠ 0)
    qfSel :=
      if synthParam pmLPFActive ≠ 0 then
        qfSelFor s.qfSel (ratTruncInt (synthParam pmLPFFilterMode))
      else s.qfSel
    qfPtr :=
      if synthParam pmLPFActive ≠ 0 then
        some (qfSelFor s.qfSel (ratTruncInt (synthParam pmLPFFilterMode)))
      else none }

/-- The parameter ids bound by the attach lambda in PolysynthVoice::attachTo, in
source order. -/
def attachedParamIds : List ℕ :=
  [pmSawUnisonSpread, pmSawCoarse, pmSawFine, pmSawLevel,
   pmPWWidth, pmPWFrequencyDiv, pmPWCoarse, pmPWFine, pmPWLevel,
   pmSinFrequencyDiv, pmSinCoarse, pmSinLevel,
   pmNoiseColor, pmNoiseLevel,
   pmSVFCutoff, pmSVFResonance, pmSVFKeytrack,
   pmLPFCutoff, pmLPFResonance, pmLPFKeytrack,
   pmEnvA, pmEnvD, pmEnvS, pmEnvR,
   pmAegPreFilterGain,
   pmEnvA + offPmFeg, pmEnvD + offPmFeg, pmEnvS + offPmFeg, pmEnvR + offPmFeg,
   pmFegToSVFCutoff, pmFegToLPFCutoff,
   pmWSDrive]

/-- PolysynthVoice::attachTo: for every attached parameter the attach lambda
writes zero into both modulation maps and binds the ModulatedValue pointers to
those entries; it also copies the mts client handle. No other voice field is
written. -/
def attachTo (hasMaster : Bool) (s : VoiceState) : VoiceState :=
  { s with
    externalMods := fun p => if p ∈ attachedParamIds then some 0 else s.externalMods p
    internalMods := fun p => if p ∈ attachedParamIds then some 0 else s.internalMods p
    mtsHasMaster := hasMaster }

/-- Unison coefficients of one saw voice as written by PolysynthVoice::start. -/
structure UnisonCoeffs where
  detune : ℝ
  panL : ℝ
  panR : ℝ
  levelNorm : ℝ

/-- The unison coefficient block PolysynthVoice::start computes for voice i of
N: the single-voice case is special-cased to centered unity without touching
the N minus one denominator; otherwise dI is i over N minus one, the detune is
two dI minus one, the pans are cosine and sine of half pi times dI, and the
level normalization is one over the square root of N. -/
noncomputable def sawUniCoeff (N i : ℕ) : UnisonCoeffs :=
  if N = 1 then { detune := 0, panL := 1, panR := 1, levelNorm := 1 }
  else
    { detune := 2 * ((i : ℝ) / ((N : ℝ) - 1)) - 1
      panL := Real.cos (0.5 * Real.pi * ((i : ℝ) / ((N : ℝ) - 1)))
      panR := Real.sin (0.5 * Real.pi * ((i : ℝ) / ((N : ℝ) - 1)))
      levelNorm := 1 / Real.sqrt N }

/-- Division with an explicit zero-denominator guard, used to show the unison
setup loop never divides by zero. -/
def safeDiv (a b : ℚ) : Option ℚ :=
  if b = 0 then none else some (a / b)

/-- One iteration of the unison setup loop with every division guarded: the dI
division by N minus one, and the level normalization division whose denominator
sqrt N vanishes exactly when N does (tracked rationally as one over N). -/
def sawDetuneChecked (N i : ℕ) : Option ℚ :=
  (safeDiv (i : ℚ) ((N : ℚ) - 1)).bind fun dI =>
    (safeDiv 1 (N : ℚ)).map fun _ => 2 * dI - 1

/-- Sequences a list of guarded computations, failing when any element fails;
this is the Option-monad shape of the unison setup loop. -/
def mapOptList (f : ℕ → Option ℚ) : List ℕ → Option (List ℚ)
  | [] => some []
  | x :: xs => (f x).bind fun y => (mapOptList f xs).map fun ys => y :: ys

/-- The unison setup of PolysynthVoice::start with every division guarded: one
unison voice takes the pinned branch with no division at all; any other count N
runs the loop body for each index below N. -/
def sawUniCoeffsChecked (N : ℕ) : Option (List ℚ) :=
  if N = 1 then some [0]
  else mapOptList (sawDetuneChecked N) (List.range N)

/-- Coefficient block of PolysynthVoice::StereoSimperSVF. -/
structure SVFCoeff (α : Type) where
  g : α
  k : α
  gk : α
  a1 : α
  a2 : α
  a3 : α
  ak : α

/-- std::clamp over the reals: lo when below, hi when above, else the value. -/
noncomputable def stdClampR (v lo hi : ℝ) : ℝ :=
  min (max v lo) hi

/-- StereoSimperSVF::setCoeff: the cutoff key is turned into a frequency by the
equal-tempered law, clamped to ten through twenty-five thousand hertz, the
resonance is clamped to the unit-adjacent band, then g, k and the
two-integrator-loop coefficients are derived; fasttan of the source is embedded
as the exact tangent. -/
noncomputable def setCoeff (keyV res srInv : ℝ) : SVFCoeff ℝ :=
  let co := stdClampR (440 * (2 : ℝ) ^ ((keyV - 69) / 12)) 10 25000
  let res2 := stdClampR res 0.01 0.99
  let g := Real.tan (Real.pi * co * srInv)
  let k := 2 - 2 * res2
  let gk := g + k
  let a1 := 1 / (1 + g * gk)
  let a2 := g * a1
  let a3 := g * a2
  let ak := gk * a1
  { g := g, k := k, gk := gk, a1 := a1, a2 := a2, a3 := a3, ak := ak }

/-- The shared per-sample computation of StereoSimperSVF::step on one SSE lane:
v3, v0, v1 and v2 from the input and the two integrator states. -/
def svfV {α : Type} [CommRing α] (c : SVFCoeff α) (ic1 ic2 inp : α) : α × α × α :=
  let v3 := inp - ic2
  let v0 := c.a1 * v3 - c.ak * ic1
  let v1 := c.a2 * v3 + c.a1 * ic1
  let v2 := c.a3 * v3 + c.a2 * ic1 + ic2
  (v0, v1, v2)

/-- The mode-selected output of StereoSimperSVF::step, written algebraically in
the shared quantities exactly as the switch does. -/
def svfModeOut {α : Type} [CommRing α] (m : SVFMode) (c : SVFCoeff α) (v0 v1 v2 : α) : α :=
  match m with
  | SVFMode.LP => v2
  | SVFMode.BP => v1
  | SVFMode.HP => v0
  | SVFMode.NOTCH => v2 + v0
  | SVFMode.PEAK => v2 - v0
  | SVFMode.ALL => v2 + v0 - c.k * v1

/-- One lane of StereoSimperSVF::step: the new integrator pair by the
two-v-minus-state updates, and the mode output. -/
def svfLaneStep {α : Type} [CommRing α] (m : SVFMode) (c : SVFCoeff α)
    (ic1 ic2 inp : α) : (α × α) × α :=
  let v := svfV c ic1 ic2 inp
  ((2 * v.2.1 - ic1, 2 * v.2.2 - ic2), svfModeOut m c v.1 v.2.1 v.2.2)

/-- StereoSimperSVF::step on the two audio lanes L and R of the SSE vector: the
same lane computation applied to each channel state and input. -/
def svfStereoStep {α : Type} [CommRing α] (m : SVFMode) (c : SVFCoeff α)
    (ic1L ic2L ic1R ic2R L R : α) : ((α × α) × (α × α)) × (α × α) :=
  let oL := svfLaneStep m c ic1L ic2L L
  let oR := svfLaneStep m c ic1R ic2R R
  ((oL.1, oR.1), (oL.2, oR.2))

/-- A concrete voice state with every field at a neutral value, used as the base
of the concrete test states below. -/
def initState : VoiceState where
  portid := 0
  channel := 0
  key := 60
  note_id := 0
  mtsHasMaster := false
  mtsFreq := fun _ _ => 0
  tblFreq := fun _ => 440
  bases := fun _ => 0
  internalMods := fun _ => none
  externalMods := fun _ => none
  pitchNoteExpressionValue := 0
  pitchBendWheel := 0
  mpePitchBend := 0
  sawActive := false
  pulseActive := false
  sinActive := false
  noiseActive := false
  svfActive := false
  lpfActive := false
  gated := false
  active := false
  sawUnison := 1
  sawUniVoiceDetune := fun _ => 0
  svfFilterOp := none
  wsPtr := none
  qfSel := QFSel.obxd_4pole_24dB
  qfPtr := none
  samplerate := 48000
  srInv := 1 / 48000

/-- A voice playing key sixty-nine with two saw unison voices, unison spread one
hundred, and all other pitch inputs zero; the detune table holds the values the
start routine computes for a count of two. -/
def c1State : VoiceState :=
  { initState with
    key := 69
    sawActive := true
    sawUnison := 2
    sawUniVoiceDetune := fun i => if i = 1 then 1 else -1
    bases := fun p => if p = pmSawUnisonSpread then 100 else 0 }

/-- A voice addressed at key two hundred, above the MIDI range. -/
def c8State : VoiceState :=
  { initState with key := 200 }

/-- A voice carrying a nonzero pitch bend wheel value. -/
def c10State : VoiceState :=
  { initState with pitchBendWheel := 1 }

/-- Helper: the guarded loop succeeds when every iteration succeeds. -/
theorem mapOptList_isSome {f : ℕ → Option ℚ} {l : List ℕ}
    (h : ∀ x ∈ l, (f x).isSome = true) : (mapOptList f l).isSome = true := by
  induction l with
  | nil => rfl
  | cons x xs ih =>
    simp only [mapOptList]
    obtain ⟨y, hy⟩ := Option.isSome_iff_exists.mp (h x (List.mem_cons_self x xs))
    obtain ⟨ys, hys⟩ :=
      Option.isSome_iff_exists.mp (ih (fun z hz => h z (List.mem_cons_of_mem x hz)))
    rw [hy, hys]
    rfl

/-- Helper: no division in the unison setup of start has a zero denominator, for
any unison count, the degenerate zero count included. -/
theorem sawUniCoeffsChecked_isSome (N : ℕ) : (sawUniCoeffsChecked N).isSome = true := by
  unfold sawUniCoeffsChecked
  by_cases h1 : N = 1
  · rw [if_pos h1]; rfl
  · rw [if_neg h1]
    apply mapOptList_isSome
    intro x hx
    have hx' : x < N := List.mem_range.mp hx
    have h2 : 2 ≤ N := by omega
    have h2q : (2 : ℚ) ≤ (N : ℚ) := by exact_mod_cast h2
    have d1 : ((N : ℚ) - 1) ≠ 0 := by linarith
    have d2 : ((N : ℚ)) ≠ 0 := by linarith
    unfold sawDetuneChecked safeDiv
    rw [if_neg d1, if_neg d2]
    rfl

/-- C1 (counterexample): at a concrete voice with unison spread one hundred and
detune one, the frequency recalcPitch programs differs from the value the claim
asserts, in which the detune times spread term enters the semitone sum
unscaled; the code divides that term by one hundred. -/
theorem saw_detune_not_in_semitones :
    sawFreq c1State 1 ≠
      ((baseFreqOf c1State : ℚ) : ℝ) *
        twoTo ((mvValue c1State pmSawCoarse + mvValue c1State pmSawFine / 100 +
          c1State.pitchNoteExpressionValue + c1State.pitchBendWheel +
          mvValue c1State pmSawUnisonSpread * c1State.sawUniVoiceDetune 1) / 12) := by
  have hb : baseFreqOf c1State = 440 := by
    norm_num [baseFreqOf, c1State, initState]
  have hL : sawExpOf c1State 1 = 1 / 12 := by
    norm_num [sawExpOf, mvValue, c1State, initState, pmSawFine, pmSawUnisonSpread, pmSawCoarse]
  have hR : (mvValue c1State pmSawCoarse + mvValue c1State pmSawFine / 100 +
      c1State.pitchNoteExpressionValue + c1State.pitchBendWheel +
      mvValue c1State pmSawUnisonSpread * c1State.sawUniVoiceDetune 1) / 12 = 25 / 3 := by
    norm_num [mvValue, c1State, initState, pmSawFine, pmSawUnisonSpread, pmSawCoarse]
  unfold sawFreq
  rw [hb, hL, hR]
  have hlt : twoTo (1 / 12) < twoTo (25 / 3) := by
    unfold twoTo
    rw [Real.rpow_lt_rpow_left_iff (by norm_num : (1 : ℝ) < 2)]
    have : (1 / 12 : ℚ) < 25 / 3 := by norm_num
    exact_mod_cast this
  have hmul : ((440 : ℚ) : ℝ) * twoTo (1 / 12) < ((440 : ℚ) : ℝ) * twoTo (25 / 3) := by
    apply mul_lt_mul_of_pos_left hlt
    norm_num
  exact ne_of_lt hmul

/-- C1 (amended): for every saw unison voice i of an active saw stack,
recalcPitch programs the frequency baseFrequency times two to the power of
(coarse + fine over one hundred + note-expression + pitch-bend + detune times
spread over one hundred, all over twelve): the detune times spread term is in
cents, like fine, not in semitones; and the exponent of voice i is the one the
render loop uses. -/
theorem recalcPitch_saw_frequency_formula (s : VoiceState) (i : ℕ)
    (hs : s.sawActive = true) (hi : i < s.sawUnison) :
    sawFreq s i =
        ((baseFreqOf s : ℚ) : ℝ) *
          twoTo ((mvValue s pmSawCoarse + mvValue s pmSawFine / 100 +
            s.pitchNoteExpressionValue + s.pitchBendWheel +
            mvValue s pmSawUnisonSpread * s.sawUniVoiceDetune i / 100) / 12) ∧
      ((recalcPitch s).2.1)[i]? = some (sawExpOf s i) := by
  constructor
  · have harg : sawExpOf s i =
        (mvValue s pmSawCoarse + mvValue s pmSawFine / 100 +
          s.pitchNoteExpressionValue + s.pitchBendWheel +
          mvValue s pmSawUnisonSpread * s.sawUniVoiceDetune i / 100) / 12 := by
      unfold sawExpOf
      ring
    unfold sawFreq
    rw [harg]
  · simp [recalcPitch, hs, List.getElem?_map, List.getElem?_range, hi]

/-- C1 (witness): the amended formula instantiated at the concrete two-voice
unison state. -/
theorem recalcPitch_saw_frequency_formula_witness :
    c1State.sawActive = true ∧ 1 < c1State.sawUnison ∧
      (sawFreq c1State 1 =
          ((baseFreqOf c1State : ℚ) : ℝ) *
            twoTo ((mvValue c1State pmSawCoarse + mvValue c1State pmSawFine / 100 +
              c1State.pitchNoteExpressionValue + c1State.pitchBendWheel +
              mvValue c1State pmSawUnisonSpread * c1State.sawUniVoiceDetune 1 / 100) / 12) ∧
        ((recalcPitch c1State).2.1)[1]? = some (sawExpOf c1State 1)) :=
  ⟨rfl, by decide, recalcPitch_saw_frequency_formula c1State 1 rfl (by decide)⟩

/-- C2: writing external modulation V to an attached parameter and then running
the block-top modulation pass yields an effective value equal to base plus V
plus the current internal modulation, exactly; the ModulatedValue combines its
three contributions by addition. -/
theorem externalMod_roundtrip_additive (s : VoiceState) (p : ℕ) (V aegOut fegOut : ℚ)
    (h : (s.externalMods p).isSome = true) :
    mvValue (processBlockMods (applyExternalMod s p V) aegOut fegOut) p =
      s.bases p + V +
        ((processBlockMods (applyExternalMod s p V) aegOut fegOut).internalMods p).getD 0 := by
  have h1 : applyExternalMod s p V =
      { s with externalMods := fun q => if q = p then some V else s.externalMods q } := by
    unfold applyExternalMod
    rw [if_pos h]
  rw [h1]
  simp only [mvValue, processBlockMods, eq_self_iff_true, if_true, Option.getD_some]
  ring

/-- C2 (witness): the round trip at a freshly attached voice, parameter
pmSawCoarse, external value two. -/
theorem externalMod_roundtrip_additive_witness :
    ((attachTo true initState).externalMods pmSawCoarse).isSome = true ∧
      mvValue (processBlockMods (applyExternalMod (attachTo true initState) pmSawCoarse 2) 0 0)
          pmSawCoarse =
        (attachTo true initState).bases pmSawCoarse + 2 +
          ((processBlockMods (applyExternalMod (attachTo true initState) pmSawCoarse 2) 0
                0).internalMods pmSawCoarse).getD 0 :=
  ⟨by decide, externalMod_roundtrip_additive (attachTo true initState) pmSawCoarse 2 0 0 (by decide)⟩

/-- C3: the unison coefficients of start: for a single unison voice everything
is pinned to centered unity with no division; for two or more voices the
detune, pan and level normalization follow the stated formulas; and no division
by zero occurs for any unison count, the degenerate zero count included. -/
theorem start_unison_coefficient_formulas (N i : ℕ) (hi : i < N) :
    (sawUniCoeffsChecked N).isSome = true ∧
      (sawUniCoeffsChecked 0).isSome = true ∧
      (N = 1 → sawUniCoeff N i = { detune := 0, panL := 1, panR := 1, levelNorm := 1 }) ∧
      (2 ≤ N →
        (sawUniCoeff N i).detune = 2 * ((i : ℝ) / ((N : ℝ) - 1)) - 1 ∧
          (sawUniCoeff N i).panL = Real.cos (Real.pi / 2 * ((i : ℝ) / ((N : ℝ) - 1))) ∧
          (sawUniCoeff N i).panR = Real.sin (Real.pi / 2 * ((i : ℝ) / ((N : ℝ) - 1))) ∧
          (sawUniCoeff N i).levelNorm = 1 / Real.sqrt N) := by
  refine ⟨sawUniCoeffsChecked_isSome N, sawUniCoeffsChecked_isSome 0, ?_, ?_⟩
  · intro h1
    unfold sawUniCoeff
    rw [if_pos h1]
  · intro h2
    have hne : N ≠ 1 := by omega
    unfold sawUniCoeff
    rw [if_neg hne]
    refine ⟨rfl, ?_, ?_, rfl⟩
    · show Real.cos (0.5 * Real.pi * ((i : ℝ) / ((N : ℝ) - 1))) =
        Real.cos (Real.pi / 2 * ((i : ℝ) / ((N : ℝ) - 1)))
      congr 1
      ring
    · show Real.sin (0.5 * Real.pi * ((i : ℝ) / ((N : ℝ) - 1))) =
        Real.sin (Real.pi / 2 * ((i : ℝ) / ((N : ℝ) - 1)))
      congr 1
      ring

/-- C3 (witness): the coefficient formulas instantiated at three unison voices,
index one. -/
theorem start_unison_coefficient_formulas_witness :
    1 < 3 ∧
      ((sawUniCoeffsChecked 3).isSome = true ∧
        (sawUniCoeffsChecked 0).isSome = true ∧
        (3 = 1 → sawUniCoeff 3 1 = { detune := 0, panL := 1, panR := 1, levelNorm := 1 }) ∧
        (2 ≤ 3 →
          (sawUniCoeff 3 1).detune = 2 * (((1 : ℕ) : ℝ) / (((3 : ℕ) : ℝ) - 1)) - 1 ∧
            (sawUniCoeff 3 1).panL =
              Real.cos (Real.pi / 2 * (((1 : ℕ) : ℝ) / (((3 : ℕ) : ℝ) - 1))) ∧
            (sawUniCoeff 3 1).panR =
              Real.sin (Real.pi / 2 * (((1 : ℕ) : ℝ) / (((3 : ℕ) : ℝ) - 1))) ∧
            (sawUniCoeff 3 1).levelNorm = 1 / Real.sqrt (3 : ℕ))) :=
  ⟨by decide, start_unison_coefficient_formulas 3 1 (by decide)⟩

/-- C4 (counterexample): at the unrecognized enumerator value nine hundred
ninety-nine, the waveshaper switch of start yields the OJD waveshaper, not the
passthrough type, and the SVF mode switch leaves a previously selected
band-pass operator in place rather than resetting to any passthrough. -/
theorem unrecognized_enum_not_passthrough :
    wsTypeFor 999 = WST.wst_ojd ∧ WST.wst_ojd ≠ WST.wst_none ∧
      svfOpSelect (some SVFMode.BP) 999 = some SVFMode.BP ∧
      qfSelFor QFSel.vintageladder_0 999 = QFSel.vintageladder_0 := by
  decide

/-- C4 (amended): an unrecognized filter or waveshaper enumeration never aborts
the block; the fallback is the OJD waveshaper for the waveshaper switch, and
the previously stored selection, unchanged, for the SVF mode and quad-filter
type switches; none of the three falls back to a passthrough. -/
theorem unrecognized_enum_fallback_behavior (code : ℤ) (prevS : Option SVFMode)
    (prevQ : QFSel) (h : code < 0 ∨ 5 < code) :
    wsTypeFor code = WST.wst_ojd ∧ svfOpSelect prevS code = prevS ∧
      qfSelFor prevQ code = prevQ := by
  refine ⟨?_, ?_, ?_⟩
  · unfold wsTypeFor
    split_ifs <;> first | rfl | omega
  · unfold svfOpSelect
    split_ifs <;> first | rfl | omega
  · unfold qfSelFor
    split_ifs <;> first | rfl | omega

/-- C4 (witness): the fallback behavior at the unrecognized code minus seven. -/
theorem unrecognized_enum_fallback_behavior_witness :
    ((-7 : ℤ) < 0 ∨ 5 < (-7 : ℤ)) ∧
      (wsTypeFor (-7) = WST.wst_ojd ∧ svfOpSelect (some SVFMode.LP) (-7) = some SVFMode.LP ∧
        qfSelFor QFSel.k35_lp_medium (-7) = QFSel.k35_lp_medium) :=
  ⟨by omega, unrecognized_enum_fallback_behavior (-7) (some SVFMode.LP) QFSel.k35_lp_medium (by omega)⟩

/-- C5: StereoSimperSVF::setCoeff clamps the equal-tempered cutoff to ten
through twenty-five thousand hertz and the resonance to the hundredth through
ninety-nine hundredths band, then sets g to the tangent of pi times the clamped
cutoff over the sample rate, k to two minus twice the clamped resonance, and
the two-integrator-loop coefficients a1, a2, a3 and ak from g and k as stated. -/
theorem setCoeff_formulas (keyV res sr : ℝ) :
    (setCoeff keyV res (1 / sr)).g =
        Real.tan (Real.pi * stdClampR (440 * (2 : ℝ) ^ ((keyV - 69) / 12)) 10 25000 / sr) ∧
      (setCoeff keyV res (1 / sr)).k = 2 - 2 * stdClampR res 0.01 0.99 ∧
      (setCoeff keyV res (1 / sr)).a1 =
        1 / (1 + (setCoeff keyV res (1 / sr)).g *
          ((setCoeff keyV res (1 / sr)).g + (setCoeff keyV res (1 / sr)).k)) ∧
      (setCoeff keyV res (1 / sr)).a2 =
        (setCoeff keyV res (1 / sr)).g * (setCoeff keyV res (1 / sr)).a1 ∧
      (setCoeff keyV res (1 / sr)).a3 =
        (setCoeff keyV res (1 / sr)).g * (setCoeff keyV res (1 / sr)).a2 ∧
      (setCoeff keyV res (1 / sr)).ak =
        ((setCoeff keyV res (1 / sr)).g + (setCoeff keyV res (1 / sr)).k) *
          (setCoeff keyV res (1 / sr)).a1 := by
  refine ⟨?_, rfl, rfl, rfl, rfl, rfl⟩
  show Real.tan (Real.pi * stdClampR (440 * (2 : ℝ) ^ ((keyV - 69) / 12)) 10 25000 * (1 / sr)) = _
  rw [mul_one_div]

/-- C6: the block-top modulation pass of processBlock writes the SVF cutoff
internal mod to the filter envelope output times the FEG-to-SVF depth plus the
SVF keytrack times key minus sixty-nine, writes the LPF cutoff internal mod
likewise, and does so before the filter coefficients are recomputed: the cutoff
recalcFilter then reads already contains the freshly written internal term. -/
theorem processBlock_internal_mod_formulas (s : VoiceState) (aegOut fegOut : ℚ) :
    (processBlockMods s aegOut fegOut).internalMods pmSVFCutoff =
        some (fegOut * mvValue s pmFegToSVFCutoff +
          mvValue s pmSVFKeytrack * ((s.key : ℚ) - 69)) ∧
      (processBlockMods s aegOut fegOut).internalMods pmLPFCutoff =
        some (fegOut * mvValue s pmFegToLPFCutoff +
          mvValue s pmLPFKeytrack * ((s.key : ℚ) - 69)) ∧
      (processBlockFilterArgs s aegOut fegOut).1 =
        s.bases pmSVFCutoff +
          (fegOut * mvValue s pmFegToSVFCutoff +
            mvValue s pmSVFKeytrack * ((s.key : ℚ) - 69)) +
          (s.externalMods pmSVFCutoff).getD 0 := by
  refine ⟨?_, ?_, ?_⟩
  · simp [processBlockMods]
  · simp [processBlockMods, pmLPFCutoff, pmSVFCutoff]
  · simp [processBlockFilterArgs, recalcFilterArgs, processBlockMods, mvValue]

/-- C7: one step of the stereo SVF leaves the two integrator state vectors
identical for any two of the six modes given the same coefficients, state and
stereo input, and each mode output is derived algebraically from the one shared
computation: LP is v2, BP is v1, HP is v0, NOTCH is v2 plus v0, PEAK is v2
minus v0, ALL is v2 plus v0 minus k times v1. -/
theorem svf_step_mode_independence (m₁ m₂ : SVFMode) (c : SVFCoeff ℚ)
    (ic1L ic2L ic1R ic2R L R : ℚ) :
    (svfStereoStep m₁ c ic1L ic2L ic1R ic2R L R).1 =
        (svfStereoStep m₂ c ic1L ic2L ic1R ic2R L R).1 ∧
      (svfLaneStep SVFMode.LP c ic1L ic2L L).2 = (svfV c ic1L ic2L L).2.2 ∧
      (svfLaneStep SVFMode.BP c ic1L ic2L L).2 = (svfV c ic1L ic2L L).2.1 ∧
      (svfLaneStep SVFMode.HP c ic1L ic2L L).2 = (svfV c ic1L ic2L L).1 ∧
      (svfLaneStep SVFMode.NOTCH c ic1L ic2L L).2 =
        (svfV c ic1L ic2L L).2.2 + (svfV c ic1L ic2L L).1 ∧
      (svfLaneStep SVFMode.PEAK c ic1L ic2L L).2 =
        (svfV c ic1L ic2L L).2.2 - (svfV c ic1L ic2L L).1 ∧
      (svfLaneStep SVFMode.ALL c ic1L ic2L L).2 =
        (svfV c ic1L ic2L L).2.2 + (svfV c ic1L ic2L L).1 - c.k * (svfV c ic1L ic2L L).2.1 := by
  refine ⟨?_, rfl, rfl, rfl, rfl, rfl, rfl⟩
  cases m₁ <;> cases m₂ <;> rfl

/-- C8: with the microtuning client absent or masterless, recalcPitch reads the
equal-tempered table at the key clamped to zero through one hundred
twenty-seven; the clamped index is always in bounds and equals the nearest
in-range key. -/
theorem recalcPitch_basefreq_clamped_table (s : VoiceState) (h : s.mtsHasMaster = false) :
    baseFreqOf s = s.tblFreq (clamp128 s.key) ∧
      (clamp128 s.key).val ≤ 127 ∧
      ((clamp128 s.key).val : ℤ) =
        (if s.key < 0 then 0 else if 127 < s.key then 127 else s.key) := by
  refine ⟨?_, ?_, ?_⟩
  · simp [baseFreqOf, h]
  · have := (clamp128 s.key).isLt
    omega
  · simp only [clamp128]
    split_ifs <;> omega

/-- C8 (witness): the clamped fallback at the out-of-range key two hundred. -/
theorem recalcPitch_basefreq_clamped_table_witness :
    c8State.mtsHasMaster = false ∧
      (baseFreqOf c8State = c8State.tblFreq (clamp128 c8State.key) ∧
        (clamp128 c8State.key).val ≤ 127 ∧
        ((clamp128 c8State.key).val : ℤ) =
          (if c8State.key < 0 then 0 else if 127 < c8State.key then 127 else c8State.key)) :=
  ⟨rfl, recalcPitch_basefreq_clamped_table c8State rfl⟩

/-- C9: setting the MPE channel pitch bend stores the centered bend fraction in
mpePitchBend, and everything recalcPitch computes afterwards, base frequency
and all oscillator tuples, is identical to before the call, since recalcPitch
never reads mpePitchBend. -/
theorem mpe_pitchbend_does_not_affect_pitch (s : VoiceState) (pb14 : ℤ) :
    recalcPitch (setVoiceMIDIMPEChannelPitchBend pb14 s) = recalcPitch s ∧
      (setVoiceMIDIMPEChannelPitchBend pb14 s).mpePitchBend = ((pb14 : ℚ) - 8192) / 8192 :=
  ⟨rfl, rfl⟩

/-- C10 (counterexample): attachTo does not zero pitchBendWheel: applied to a
voice whose wheel holds one, the wheel still holds one afterwards. -/
theorem attachTo_does_not_zero_pitchBendWheel :
    (attachTo true c10State).pitchBendWheel = 1 ∧ (1 : ℚ) ≠ 0 ∧
      (attachTo true c10State).pitchNoteExpressionValue = c10State.pitchNoteExpressionValue :=
  ⟨rfl, by norm_num, rfl⟩

/-- C10 (amended): start never writes the external or internal modulation maps,
the pitch note expression, or the pitch bend wheel; attachTo zeroes the two
modulation maps at every attached parameter but leaves the two pitch fields
untouched, so a reused slot keeps the previous note values of whatever attachTo
does not rebind. -/
theorem start_preserves_mod_state (porti channeli keyi noteidi : ℤ) (synthParam : ℕ → ℚ)
    (s : VoiceState) (b : Bool) (p : ℕ) (hp : p ∈ attachedParamIds) :
    (start porti channeli keyi noteidi synthParam s).externalMods = s.externalMods ∧
      (start porti channeli keyi noteidi synthParam s).internalMods = s.internalMods ∧
      (start porti channeli keyi noteidi synthParam s).pitchNoteExpressionValue =
        s.pitchNoteExpressionValue ∧
      (start porti channeli keyi noteidi synthParam s).pitchBendWheel = s.pitchBendWheel ∧
      (attachTo b s).externalMods p = some 0 ∧
      (attachTo b s).internalMods p = some 0 ∧
      (attachTo b s).pitchBendWheel = s.pitchBendWheel ∧
      (attachTo b s).pitchNoteExpressionValue = s.pitchNoteExpressionValue := by
  refine ⟨rfl, rfl, rfl, rfl, ?_, ?_, rfl, rfl⟩
  · simp [attachTo, hp]
  · simp [attachTo, hp]

/-- C10 (witness): the preservation facts at a concrete fresh voice and the
attached parameter pmSawCoarse. -/
theorem start_preserves_mod_state_witness :
    pmSawCoarse ∈ attachedParamIds ∧
      ((start 0 0 60 0 (fun _ => 0) initState).externalMods = initState.externalMods ∧
        (start 0 0 60 0 (fun _ => 0) initState).internalMods = initState.internalMods ∧
        (start 0 0 60 0 (fun _ => 0) initState).pitchNoteExpressionValue =
          initState.pitchNoteExpressionValue ∧
        (start 0 0 60 0 (fun _ => 0) initState).pitchBendWheel = initState.pitchBendWheel ∧
        (attachTo true initState).externalMods pmSawCoarse = some 0 ∧
        (attachTo true initState).internalMods pmSawCoarse = some 0 ∧
        (attachTo true initState).pitchBendWheel = initState.pitchBendWheel ∧
        (attachTo true initState).pitchNoteExpressionValue =
          initState.pitchNoteExpressionValue) :=
  ⟨by decide, start_preserves_mod_state 0 0 60 0 (fun _ => 0) initState true pmSawCoarse (by decide)⟩

end ConduitPolysynth
